import Mathlib

/-!
Verification of the oidc-cookie-forward-auth server (a forward-authentication
middleware bridging an OIDC login flow to a cookie-based upstream application).

The development shallowly embeds the repository's core:
* `src/db.ts` — the session database (`encodeSessionToken`, `createSession`,
  `validateSessionToken`, `invalidateSession`), with time as `Nat` milliseconds
  and the SQLite table as a list of rows;
* `src/create-server.ts` — the forward-auth state machine (`redirectToAuth`,
  `handleCallback`, `handleOtherRequests`, the route dispatcher), with the
  external OIDC exchange, host-config resolution and upstream capabilities
  supplied as an explicit per-request environment and thrown exceptions
  modelled as `Except.error`.

The token hash used by the database is the real SHA-256 compression function
over `Nat` words reduced mod 2^32 (the TypeScript calls `@oslojs/crypto`'s
`sha256` on the UTF-8 bytes of the token and hex-encodes the digest), so every
definition here is executable and concrete inputs evaluate by `decide`/`rfl`.
-/

set_option maxRecDepth 200000

namespace OidcForwardAuth

/-! ## SHA-256 over byte lists (the hash behind `encodeSessionToken`) -/

/-- Reduce a natural number to a 32-bit word. -/
def w32 (x : Nat) : Nat := x % 4294967296

/-- Rotate a 32-bit word right by `n` bits. -/
def rotr (n x : Nat) : Nat := w32 ((x >>> n) ||| (x <<< (32 - n)))

/-- SHA-256 `Ch(x, y, z) = (x ∧ y) ⊕ (¬x ∧ z)`. -/
def shaCh (x y z : Nat) : Nat := (x &&& y) ^^^ ((x ^^^ 4294967295) &&& z)

/-- SHA-256 `Maj(x, y, z) = (x ∧ y) ⊕ (x ∧ z) ⊕ (y ∧ z)`. -/
def shaMaj (x y z : Nat) : Nat := (x &&& y) ^^^ (x &&& z) ^^^ (y &&& z)

/-- SHA-256 big Σ₀. -/
def bigSigma0 (x : Nat) : Nat := rotr 2 x ^^^ rotr 13 x ^^^ rotr 22 x

/-- SHA-256 big Σ₁. -/
def bigSigma1 (x : Nat) : Nat := rotr 6 x ^^^ rotr 11 x ^^^ rotr 25 x

/-- SHA-256 small σ₀. -/
def smallSigma0 (x : Nat) : Nat := rotr 7 x ^^^ rotr 18 x ^^^ (x >>> 3)

/-- SHA-256 small σ₁. -/
def smallSigma1 (x : Nat) : Nat := rotr 17 x ^^^ rotr 19 x ^^^ (x >>> 10)

/-- The 64 SHA-256 round constants (FIPS 180-4, written in decimal). -/
def shaK : List Nat :=
  [1116352408, 1899447441, 3049323471, 3921009573,
   961987163, 1508970993, 2453635748, 2870763221,
   3624381080, 310598401, 607225278, 1426881987,
   1925078388, 2162078206, 2614888103, 3248222580,
   3835390401, 4022224774, 264347078, 604807628,
   770255983, 1249150122, 1555081692, 1996064986,
   2554220882, 2821834349, 2952996808, 3210313671,
   3336571891, 3584528711, 113926993, 338241895,
   666307205, 773529912, 1294757372, 1396182291,
   1695183700, 1986661051, 2177026350, 2456956037,
   2730485921, 2820302411, 3259730800, 3345764771,
   3516065817, 3600352804, 4094571909, 275423344,
   430227734, 506948616, 659060556, 883997877,
   958139571, 1322822218, 1537002063, 1747873779,
   1955562222, 2024104815, 2227730452, 2361852424,
   2428436474, 2756734187, 3204031479, 3329325298]

/-- The eight SHA-256 working variables / chaining values. -/
structure ShaState where
  a : Nat
  b : Nat
  c : Nat
  d : Nat
  e : Nat
  f : Nat
  g : Nat
  h : Nat

/-- Initial SHA-256 chaining value (FIPS 180-4, written in decimal). -/
def shaH0 : ShaState :=
  ⟨1779033703, 3144134277, 1013904242, 2773480762,
   1359893119, 2600822924, 528734635, 1541459225⟩

/-- One SHA-256 compression round, fed a pair (schedule word, round constant). -/
def shaRound (st : ShaState) (wk : Nat × Nat) : ShaState :=
  let t1 := w32 (st.h + bigSigma1 st.e + shaCh st.e st.f st.g + wk.2 + wk.1)
  let t2 := w32 (bigSigma0 st.a + shaMaj st.a st.b st.c)
  ⟨w32 (t1 + t2), st.a, st.b, st.c, w32 (st.d + t1), st.e, st.f, st.g⟩

/-- Pack bytes into big-endian 32-bit words, four at a time. -/
def toWords : List Nat → List Nat
  | b0 :: b1 :: b2 :: b3 :: rest => (((b0 * 256 + b1) * 256 + b2) * 256 + b3) :: toWords rest
  | _ => []

/-- Extend a 16-word message schedule by `k` further words. -/
def extendSchedule : List Nat → Nat → List Nat
  | ws, 0 => ws
  | ws, k + 1 =>
    let ws2 := extendSchedule ws k
    let i := ws2.length
    ws2 ++ [w32 (smallSigma1 (ws2.getD (i - 2) 0) + ws2.getD (i - 7) 0 +
                 smallSigma0 (ws2.getD (i - 15) 0) + ws2.getD (i - 16) 0)]

/-- Compress one 64-byte block into the chaining value. -/
def compressBlock (hv : ShaState) (block : List Nat) : ShaState :=
  let ws := extendSchedule (toWords block) 48
  let st := (ws.zip shaK).foldl shaRound hv
  ⟨w32 (hv.a + st.a), w32 (hv.b + st.b), w32 (hv.c + st.c), w32 (hv.d + st.d),
   w32 (hv.e + st.e), w32 (hv.f + st.f), w32 (hv.g + st.g), w32 (hv.h + st.h)⟩

/-- Big-endian bytes of a 64-bit length field. -/
def lenBytes (n : Nat) : List Nat :=
  [(n >>> 56) % 256, (n >>> 48) % 256, (n >>> 40) % 256, (n >>> 32) % 256,
   (n >>> 24) % 256, (n >>> 16) % 256, (n >>> 8) % 256, n % 256]

/-- SHA-256 padding: a 1-bit, zeros to 56 mod 64, then the bit length. -/
def padBytes (msg : List Nat) : List Nat :=
  let len := msg.length
  msg ++ [128] ++ List.replicate ((119 - len % 64) % 64) 0 ++ lenBytes (8 * len)

/-- Split a byte list into 64-byte chunks, with explicit fuel so that the
recursion is structural (kernel-reducible). -/
def chunks64Aux : Nat → List Nat → List (List Nat)
  | 0, _ => []
  | _, [] => []
  | fuel + 1, l => l.take 64 :: chunks64Aux fuel (l.drop 64)

/-- Split a byte list into 64-byte chunks. -/
def chunks64 (l : List Nat) : List (List Nat) := chunks64Aux l.length l

/-- Big-endian bytes of one 32-bit word. -/
def wordBytes (w : Nat) : List Nat :=
  [(w >>> 24) % 256, (w >>> 16) % 256, (w >>> 8) % 256, w % 256]

/-- The 32 digest bytes of a chaining value. -/
def stateBytes (st : ShaState) : List Nat :=
  wordBytes st.a ++ wordBytes st.b ++ wordBytes st.c ++ wordBytes st.d ++
  wordBytes st.e ++ wordBytes st.f ++ wordBytes st.g ++ wordBytes st.h

/-- SHA-256 of a byte list. -/
def sha256 (msg : List Nat) : List Nat :=
  stateBytes ((chunks64 (padBytes msg)).foldl compressBlock shaH0)

/-! ## Hex encoding and UTF-8 (the `encodeHexLowerCase`/`TextEncoder` steps) -/

/-- Lower-case hex digit of a value below 16. -/
def hexDigit (n : Nat) : Char :=
  if n < 10 then Char.ofNat (48 + n) else Char.ofNat (87 + n)

/-- Two lower-case hex digits of a byte. -/
def byteHex (b : Nat) : List Char := [hexDigit (b / 16), hexDigit (b % 16)]

/-- Lower-case hex string of a byte list (`encodeHexLowerCase`). -/
def encodeHexLowerCase (bs : List Nat) : String := String.mk (bs.flatMap byteHex)

/-- UTF-8 bytes of one scalar value, as `TextEncoder` produces them. -/
def utf8Bytes (c : Char) : List Nat :=
  let n := c.toNat
  if n < 128 then [n]
  else if n < 2048 then [192 ||| (n >>> 6), 128 ||| (n &&& 63)]
  else if n < 65536 then
    [224 ||| (n >>> 12), 128 ||| ((n >>> 6) &&& 63), 128 ||| (n &&& 63)]
  else
    [240 ||| (n >>> 18), 128 ||| ((n >>> 12) &&& 63),
     128 ||| ((n >>> 6) &&& 63), 128 ||| (n &&& 63)]

/-- UTF-8 bytes of a string (`new TextEncoder().encode(...)`). -/
def strBytes (s : String) : List Nat := s.data.flatMap utf8Bytes

/-- Embeds `encodeSessionToken` from `src/db.ts`: the lower-case hex of the
SHA-256 of the token's UTF-8 bytes. -/
def encodeSessionToken (token : String) : String :=
  encodeHexLowerCase (sha256 (strBytes token))

/-! ## Upstream cookie jar

A `Bun.Cookie` restricted to the fields this server ever reads back: `name`,
`value` and `maxAge` (the callback computes the session max-age from `maxAge`,
and revalidation rebuilds a `Cookie:` header from `name`/`value`). The
serialized form mirrors `JSON.stringify(cookies.map(c => c.toJSON()))` on
those fields, and the parser mirrors the
`(JSON.parse(s) as ...).map(c => new Bun.Cookie(c))` read-back. -/

structure BunCookie where
  name : String
  value : String
  maxAge : Option Int
deriving DecidableEq

/-- JSON string-character escaping for quote and backslash. -/
def escChar (c : Char) : List Char :=
  if c = '"' ∨ c = '\\' then ['\\', c] else [c]

/-- A JSON string literal (quotes plus escaped content). -/
def jsonString (s : String) : String :=
  "\"" ++ String.mk (s.data.flatMap escChar) ++ "\""

/-- One cookie as a JSON object over the modelled fields. -/
def cookieJson (c : BunCookie) : String :=
  "\x7b\"name\":" ++ jsonString c.name ++ ",\"value\":" ++ jsonString c.value ++
  (match c.maxAge with
   | none => ""
   | some m => ",\"maxAge\":" ++ toString m) ++ "\x7d"

/-- Embeds the callback's `JSON.stringify(cookies.map(c => c.toJSON()))`. -/
def serializeCookies (cs : List BunCookie) : String :=
  "[" ++ String.intercalate "," (cs.map cookieJson) ++ "]"

/-- Read a JSON string body (after the opening quote), undoing `escChar`. -/
def parseJStr : List Char → Option (List Char × List Char)
  | [] => none
  | '"' :: rest => some ([], rest)
  | '\\' :: c :: rest => (parseJStr rest).map (fun p => (c :: p.1, p.2))
  | c :: rest => (parseJStr rest).map (fun p => (c :: p.1, p.2))

/-- Consume an expected literal prefix. -/
def dropLit : List Char → List Char → Option (List Char)
  | [], xs => some xs
  | l :: ls, x :: xs => if x = l then dropLit ls xs else none
  | _ :: _, [] => none

/-- Consume decimal digits into an accumulator. -/
def parseDigits : List Char → Nat → Nat × List Char
  | c :: xs, acc => if c.isDigit then parseDigits xs (acc * 10 + (c.toNat - 48)) else (acc, c :: xs)
  | [], acc => (acc, [])

/-- Parse an optionally signed integer literal. -/
def parseIntLit : List Char → Option (Int × List Char)
  | '-' :: c :: xs =>
    if c.isDigit then
      let p := parseDigits (c :: xs) 0
      some (-(p.1 : Int), p.2)
    else none
  | c :: xs =>
    if c.isDigit then
      let p := parseDigits (c :: xs) 0
      some ((p.1 : Int), p.2)
    else none
  | [] => none

/-- Parse one serialized cookie object. -/
def parseCookieObj (xs : List Char) : Option (BunCookie × List Char) := do
  let xs ← dropLit "\x7b\"name\":\"".data xs
  let (nm, xs) ← parseJStr xs
  let xs ← dropLit ",\"value\":\"".data xs
  let (vl, xs) ← parseJStr xs
  match dropLit ",\"maxAge\":".data xs with
  | some xs2 => do
    let (m, xs3) ← parseIntLit xs2
    let xs4 ← dropLit "\x7d".data xs3
    pure (⟨String.mk nm, String.mk vl, some m⟩, xs4)
  | none => do
    let xs2 ← dropLit "\x7d".data xs
    pure (⟨String.mk nm, String.mk vl, none⟩, xs2)

/-- Parse a comma-separated sequence of cookie objects up to the closing
bracket, with fuel for structural recursion. -/
def parseCookieSeq : Nat → List Char → Option (List BunCookie × List Char)
  | 0, _ => none
  | fuel + 1, xs => do
    let (c, xs) ← parseCookieObj xs
    match xs with
    | ']' :: rest => some ([c], rest)
    | ',' :: rest => do
      let (cs, r) ← parseCookieSeq fuel rest
      pure (c :: cs, r)
    | _ => none

/-- Embeds the revalidation flow's
`(JSON.parse(session.upstreamCookies) as ...).map(c => new Bun.Cookie(c))`;
`none` corresponds to `JSON.parse` throwing. -/
def parseCookies (s : String) : Option (List BunCookie) :=
  match s.data with
  | '[' :: ']' :: rest => if rest = [] then some [] else none
  | '[' :: xs =>
    match parseCookieSeq (xs.length + 1) xs with
    | some (cs, []) => some cs
    | _ => none
  | _ => none

/-- Embeds `getCookieHeader`: `name=value` pairs joined by `"; "`. -/
def getCookieHeader (cookies : List BunCookie) : String :=
  String.intercalate "; " (cookies.map (fun c => c.name ++ "=" ++ c.value))

/-- Embeds the callback's session max-age computation
`Math.min(...cookies.map(c => c.maxAge ?? Infinity), 60 * 60 * 24 * 30)`:
absent max-ages contribute `Infinity` and so drop out of the minimum, and the
30-day cap keeps the result finite. -/
def sessionMaxAge (cookies : List BunCookie) : Int :=
  (cookies.filterMap BunCookie.maxAge).foldr min 2592000

/-! ## Credential store (`src/db.ts`)

The SQLite `session` table is a list of rows; `Date.now()` becomes an explicit
`now : Nat` in epoch milliseconds, threaded per call. `expires_at` is stored in
epoch seconds via `Math.floor(ms / 1000)` = `Nat` division, exactly as the
TypeScript stores it. -/

structure Row where
  id : String
  expires_at : Nat
  upstream_cookies : String
deriving DecidableEq

abbrev Store := List Row

structure Session where
  id : String
  expiresAt : Nat
  upstreamCookies : String
deriving DecidableEq

/-- Milliseconds in a day. -/
def DAY_MS : Nat := 1000 * 60 * 60 * 24

/-- `SELECT ... FROM session WHERE id = ?` (primary-key lookup). -/
def findRow (store : Store) (id : String) : Option Row :=
  store.find? (fun r => r.id == id)

/-- `DELETE FROM session WHERE id = ?`. -/
def deleteRow (store : Store) (id : String) : Store :=
  store.filter (fun r => r.id != id)

/-- `UPDATE session SET expires_at = ? WHERE id = ?`. -/
def updateRow (store : Store) (id : String) (expires : Nat) : Store :=
  store.map (fun r => if r.id == id then ⟨r.id, expires, r.upstream_cookies⟩ else r)

/-- Embeds `SessionDatabase.createSession`: hash the token, set expiry to
`now + 30` days, insert the row (storing floor-seconds), return the session. -/
def createSession (now : Nat) (store : Store) (token upstreamCookies : String) :
    Session × Store :=
  let sessionId := encodeSessionToken token
  let session : Session := ⟨sessionId, now + 30 * DAY_MS, upstreamCookies⟩
  (session, store ++ [⟨session.id, session.expiresAt / 1000, upstreamCookies⟩])

/-- Embeds `SessionDatabase.validateSessionToken`: hash the token and look the
row up by the hash; delete and return `none` when `now ≥ expiresAt`; renew to
`now + 30` days (persisting the update) when within 15 days of expiry;
otherwise return the session unchanged. -/
def validateSessionToken (now : Nat) (store : Store) (token : String) :
    Option Session × Store :=
  let sessionId := encodeSessionToken token
  match findRow store sessionId with
  | none => (none, store)
  | some row =>
    let session : Session := ⟨row.id, row.expires_at * 1000, row.upstream_cookies⟩
    if now ≥ session.expiresAt then
      (none, deleteRow store session.id)
    else if now ≥ session.expiresAt - 15 * DAY_MS then
      (some ⟨session.id, now + 30 * DAY_MS, session.upstreamCookies⟩,
       updateRow store session.id ((now + 30 * DAY_MS) / 1000))
    else
      (some session, store)

/-- Embeds `SessionDatabase.invalidateSession`: unconditional delete by id. -/
def invalidateSession (store : Store) (sessionId : String) : Store :=
  deleteRow store sessionId

/-! ## Session controller (`src/create-server.ts`)

One incoming forward-auth request is handled with:
* the request data — the four `x-forwarded-*` headers (already combined into a
  URL where the handler works on one) and the request cookies;
* an environment carrying the results of the per-request external effects:
  `Date.now()`, `arctic.generateState()`, `generateSessionToken()`, the
  authorization-code exchange outcome, and the resolved host config whose two
  capabilities may themselves reject (`Except.error` = a thrown exception);
* the credential store before the request.

The outcome records the response (or an uncaught exception escaping the
handler), the store afterwards, which external calls were made, and the header
value passed to `validateUpstreamSession`. Mutations of `req.cookies`
(`set`/`delete`), which Bun surfaces as `Set-Cookie` response headers, are
recorded in order on the response. -/

structure Config where
  clientId : String
  authorizationEndpoint : String
  scopes : List String
  secure : Bool
  callbackPath : String
  logoutPath : String
deriving DecidableEq

/-- `STATE_COOKIE_NAME`: `__Host-state` in secure-cookie mode, else `state`. -/
def stateCookieName (cfg : Config) : String :=
  if cfg.secure then "__Host-state" else "state"

/-- `SESSION_COOKIE_NAME`: `__Host-session` in secure-cookie mode, else `session`. -/
def sessionCookieName (cfg : Config) : String :=
  if cfg.secure then "__Host-session" else "session"

/-- The upstream login `Response`: its status and parsed `Set-Cookie` entries. -/
structure UpstreamResponse where
  status : Nat
  setCookies : List BunCookie
deriving DecidableEq

/-- The per-host capability pair; a call either returns or throws. -/
structure HostConfig where
  getUpstreamCookies : Except String UpstreamResponse
  validateUpstreamSession : String → Except String Bool

/-- Outcome of `validateAuthorizationCode`: success, `OAuth2RequestError`
(provider-rejected grant, carrying the provider error code),
`ArcticFetchError` (transport failure, carrying the cause message), or any
other thrown error (e.g. a parse error). -/
inductive ExchangeOutcome where
  | success
  | oauthError (code : String)
  | fetchError (message : String)
  | otherError (message : String)
deriving DecidableEq

/-- The external effects a single request observes. -/
structure Env where
  now : Nat
  generatedState : String
  generatedToken : String
  exchange : ExchangeOutcome
  hostConfig : Except String HostConfig

/-- The forwarded URL `new URL(proto://host:port + path)`, kept structured:
scheme, hostname, port, pathname and decomposed query. -/
structure ForwardedUrl where
  proto : String
  hostname : String
  port : String
  pathname : String
  query : List (String × String)
deriving DecidableEq

/-- The default port a URL elides from `host`/`origin` for its scheme. -/
def defaultPort (proto : String) : String :=
  if proto = "http" then "80" else if proto = "https" then "443" else ""

/-- `url.host`: hostname plus port, with the scheme's default port elided. -/
def ForwardedUrl.host (u : ForwardedUrl) : String :=
  if u.port = "" ∨ u.port = defaultPort u.proto then u.hostname
  else u.hostname ++ ":" ++ u.port

/-- `url.origin`. -/
def ForwardedUrl.origin (u : ForwardedUrl) : String :=
  u.proto ++ "://" ++ u.host

/-- `url.searchParams.get`: first value for the key, if any. -/
def ForwardedUrl.getParam (u : ForwardedUrl) (key : String) : Option String :=
  (u.query.find? (fun kv => kv.1 == key)).map (fun kv => kv.2)

/-- `req.cookies.get`: first value for the cookie name, if any. -/
def getReqCookie (cookies : List (String × String)) (name : String) : Option String :=
  (cookies.find? (fun kv => kv.1 == name)).map (fun kv => kv.2)

/-- JavaScript truthiness check for an optional string: absent or empty. -/
def isFalsy : Option String → Prop
  | none => True
  | some s => s = ""

instance : DecidablePred isFalsy := by
  intro o
  cases o with
  | none => exact .isTrue trivial
  | some s => exact inferInstanceAs (Decidable (s = ""))

/-- A mutation of `req.cookies`, surfaced as a `Set-Cookie` response header.
Only the max-age among the cookie attributes feeds any claim; the remaining
merged cookie options are process constants. -/
inductive CookieOp where
  | set (name value : String) (maxAge : Option Int)
  | del (name : String)
deriving DecidableEq

/-- A URL a response redirects to, kept structured: base plus query params. -/
structure UrlModel where
  base : String
  params : List (String × String)
deriving DecidableEq

/-- Query-parameter lookup on a structured URL. -/
def UrlModel.getParam (m : UrlModel) (key : String) : Option String :=
  (m.params.find? (fun kv => kv.1 == key)).map (fun kv => kv.2)

structure HttpResponse where
  status : Nat
  body : String
  location : Option UrlModel
  headers : List (String × String)
  cookieOps : List CookieOp
deriving DecidableEq

/-- The observable outcome of handling one request. -/
structure FlowResult where
  result : Except String HttpResponse
  store : Store
  calledExchange : Bool
  calledGetHostConfig : Bool
  calledGetUpstreamCookies : Bool
  calledValidateUpstream : Bool
  validateArg : Option String

/-- Embeds `arctic`'s `OAuth2Client.createAuthorizationURL` as the repository
configures it: the authorization endpoint carrying `response_type=code`, the
client id, the redirect URI derived from the forwarded origin plus the
callback path, the state, and the space-joined scopes when any are
configured. -/
def authorizationUrl (cfg : Config) (u : ForwardedUrl) (state : String) : UrlModel :=
  ⟨cfg.authorizationEndpoint,
   [("response_type", "code"), ("client_id", cfg.clientId),
    ("redirect_uri", u.origin ++ cfg.callbackPath), ("state", state)] ++
   (if cfg.scopes = [] then [] else [("scope", String.intercalate " " cfg.scopes)])⟩

/-- Embeds `redirectToAuth`: generate a state, store it in a 10-minute state
cookie, and 302 to the authorization URL. -/
def redirectToAuth (cfg : Config) (env : Env) (u : ForwardedUrl) : HttpResponse :=
  ⟨302, "", some (authorizationUrl cfg u env.generatedState), [],
   [CookieOp.set (stateCookieName cfg) env.generatedState (some 600)]⟩

/-- Body of the invalid-state 400 response. -/
def invalidStateBody : String := "Invalid state or missing code. Please try again."

/-- Upstream-failure 502 body prefix. -/
def upstreamFailBody (detail : String) : String :=
  "Failed to authenticate with upstream service: " ++ detail

/-- Embeds `handleCallback`. The state cookie is deleted up front; the flow
validates `code`/`state` against the stored state cookie, runs the exchange,
resolves the host config and performs upstream login (both inside the inner
`try`, so their throws become 502s), computes the session cookie max-age from
the upstream cookies, creates the session, and redirects to the origin.
Exchange failures map to 401/502/500 in the outer `catch`. -/
def handleCallback (cfg : Config) (env : Env) (u : ForwardedUrl)
    (reqCookies : List (String × String)) (store : Store) : FlowResult :=
  let code := u.getParam "code"
  let state := u.getParam "state"
  let storedState := getReqCookie reqCookies (stateCookieName cfg)
  let delState := CookieOp.del (stateCookieName cfg)
  if isFalsy code ∨ isFalsy storedState ∨ state ≠ storedState then
    ⟨.ok ⟨400, invalidStateBody, none, [], [delState]⟩, store,
     false, false, false, false, none⟩
  else
    match env.exchange with
    | .success =>
      let token := env.generatedToken
      match env.hostConfig with
      | .error msg =>
        ⟨.ok ⟨502, upstreamFailBody msg, none, [], [delState]⟩, store,
         true, true, false, false, none⟩
      | .ok hc =>
        match hc.getUpstreamCookies with
        | .error msg =>
          ⟨.ok ⟨502, upstreamFailBody msg, none, [], [delState]⟩, store,
           true, true, true, false, none⟩
        | .ok resp =>
          if 200 ≤ resp.status ∧ resp.status ≤ 299 then
            let cookies := resp.setCookies
            let maxAge := sessionMaxAge cookies
            let created := createSession env.now store token (serializeCookies cookies)
            ⟨.ok ⟨302, "", some ⟨u.origin, []⟩, [],
                  [delState, CookieOp.set (sessionCookieName cfg) token (some maxAge)]⟩,
             created.2, true, true, true, false, none⟩
          else
            ⟨.ok ⟨502, upstreamFailBody (toString resp.status), none, [], [delState]⟩,
             store, true, true, true, false, none⟩
    | .oauthError c =>
      ⟨.ok ⟨401, "Error: " ++ c, none, [], [delState]⟩, store,
       true, false, false, false, none⟩
    | .fetchError m =>
      ⟨.ok ⟨502, "Error: " ++ m, none, [], [delState]⟩, store,
       true, false, false, false, none⟩
    | .otherError m =>
      ⟨.ok ⟨500, "An unexpected error occurred: " ++ m, none, [], [delState]⟩, store,
       true, false, false, false, none⟩

/-- Embeds `handleOtherRequests` (the protected-resource check): redirect to
auth when no session cookie; validate the session (deleting the session cookie
and redirecting when absent/expired); rebuild the `Cookie:` header from the
stored upstream cookies; resolve the host config and call
`validateUpstreamSession` — both outside any `try`, so a rejection here
escapes the handler (`result = .error`); on `false` delete the session cookie,
call `invalidateSession` with the raw session token, and redirect; on `true`
respond 200 `OK` with the `Cookie` header attached. -/
def handleOtherRequests (cfg : Config) (env : Env) (u : ForwardedUrl)
    (reqCookies : List (String × String)) (store : Store) : FlowResult :=
  match getReqCookie reqCookies (sessionCookieName cfg) with
  | none =>
    ⟨.ok (redirectToAuth cfg env u), store, false, false, false, false, none⟩
  | some sessionToken =>
    if sessionToken = "" then
      ⟨.ok (redirectToAuth cfg env u), store, false, false, false, false, none⟩
    else
      match validateSessionToken env.now store sessionToken with
      | (none, store2) =>
        let r := redirectToAuth cfg env u
        ⟨.ok ⟨r.status, r.body, r.location, r.headers,
              CookieOp.del (sessionCookieName cfg) :: r.cookieOps⟩, store2,
         false, false, false, false, none⟩
      | (some session, store2) =>
        match parseCookies session.upstreamCookies with
        | none =>
          ⟨.error "SyntaxError: JSON Parse error", store2, false, false, false, false, none⟩
        | some cookies =>
          let hdr := getCookieHeader cookies
          match env.hostConfig with
          | .error msg => ⟨.error msg, store2, false, true, false, false, none⟩
          | .ok hc =>
            match hc.validateUpstreamSession hdr with
            | .error msg => ⟨.error msg, store2, false, true, false, true, some hdr⟩
            | .ok false =>
              let store3 := invalidateSession store2 sessionToken
              let r := redirectToAuth cfg env u
              ⟨.ok ⟨r.status, r.body, r.location, r.headers,
                    CookieOp.del (sessionCookieName cfg) :: r.cookieOps⟩, store3,
               false, true, false, true, some hdr⟩
            | .ok true =>
              ⟨.ok ⟨200, "OK", none, [("Cookie", hdr)], []⟩, store2,
               false, true, false, true, some hdr⟩

/-- Body of the logout response. -/
def logoutBody (u : ForwardedUrl) : String :=
  "Logged out successfully. Go to " ++ u.origin ++ " to log in again."

/-- Embeds the forward-auth route handler's dispatch on the forwarded
pathname: callback flow, logout (delete the session cookie, 401 with
`Clear-Site-Data`), or the protected-resource check. -/
def handleForwardAuth (cfg : Config) (env : Env) (u : ForwardedUrl)
    (reqCookies : List (String × String)) (store : Store) : FlowResult :=
  if u.pathname = cfg.callbackPath then
    handleCallback cfg env u reqCookies store
  else if u.pathname = cfg.logoutPath then
    ⟨.ok ⟨401, logoutBody u, none, [("Clear-Site-Data", "\"cookies\"")],
          [CookieOp.del (sessionCookieName cfg)]⟩, store,
     false, false, false, false, none⟩
  else
    handleOtherRequests cfg env u reqCookies store

/-- Split a character list on a separator (like `String.splitOn` for a
one-character separator). -/
def splitOnChar (sep : Char) : List Char → List (List Char)
  | [] => [[]]
  | c :: rest =>
    let r := splitOnChar sep rest
    if c = sep then [] :: r
    else
      match r with
      | [] => [[c]]
      | x :: xs => (c :: x) :: xs

/-- Join character chunks with a separator (inverse of `splitOnChar`). -/
def joinChar (sep : Char) : List (List Char) → List Char
  | [] => []
  | [x] => x
  | x :: xs => x ++ sep :: joinChar sep xs

/-- Query part of the forwarded URI (after the first `?`), decomposed like
`URLSearchParams` into key/value pairs split at the first `=`. -/
def parseQuery (s : String) : List (String × String) :=
  if s = "" then []
  else
    (splitOnChar '&' s.data).filterMap (fun kv =>
      if kv = [] then none
      else
        match splitOnChar '=' kv with
        | [] => none
        | k :: rest => some (String.mk k, String.mk (joinChar '=' rest)))

/-- Build the forwarded URL from the four header values: pathname up to the
first `?`, query decomposed after it. -/
def parseForwardedUrl (proto host port uri : String) : ForwardedUrl :=
  ⟨proto, host, port, String.mk (uri.data.takeWhile (fun c => c ≠ '?')),
   parseQuery (match uri.data.dropWhile (fun c => c ≠ '?') with
               | [] => ""
               | _ :: rest => String.mk rest)⟩

/-- Embeds the forward-auth route entry: all four `x-forwarded-*` headers must
be present and non-empty, else 400 `Invalid forward-auth request`; otherwise
dispatch on the reconstructed forwarded URL. -/
def routeForwardAuth (cfg : Config) (env : Env)
    (proto host port uri : Option String)
    (reqCookies : List (String × String)) (store : Store) : FlowResult :=
  match proto, host, port, uri with
  | some p, some hst, some prt, some pth =>
    if p = "" ∨ hst = "" ∨ prt = "" ∨ pth = "" then
      ⟨.ok ⟨400, "Invalid forward-auth request", none, [], []⟩, store,
       false, false, false, false, none⟩
    else
      handleForwardAuth cfg env (parseForwardedUrl p hst prt pth) reqCookies store
  | _, _, _, _ =>
    ⟨.ok ⟨400, "Invalid forward-auth request", none, [], []⟩, store,
     false, false, false, false, none⟩

/-! ## Specification-side definitions

These follow the words of the specification/claims (not the code), for the
refinement-style claims that compare the code against them. -/

/-- Specification reading of `validateSessionToken` (claim C4): hash the token
and look up by the hash; absent ⇒ absent; expired (`now ≥ expiresAt`) ⇒ delete
the row and return absent; within the renewal window
(`expiresAt − now ≤ 15 days`) ⇒ set expiry to `now + 30` days, persist the
update, and return the renewed session; otherwise return the session
unchanged with no write. -/
def validateSessionTokenSpec (now : Nat) (store : Store) (token : String) :
    Option Session × Store :=
  let key := encodeSessionToken token
  match findRow store key with
  | none => (none, store)
  | some row =>
    let expMs := row.expires_at * 1000
    if now ≥ expMs then
      (none, deleteRow store key)
    else if expMs - now ≤ 15 * DAY_MS then
      (some ⟨key, now + 30 * DAY_MS, row.upstream_cookies⟩,
       updateRow store key ((now + 30 * DAY_MS) / 1000))
    else
      (some ⟨key, expMs, row.upstream_cookies⟩, store)

/-- The acceptance condition of claim C3: the `code` query parameter is
present, the stored state cookie is present, and the cookie value equals the
callback's `state` query parameter. -/
def callbackAccepts (cfg : Config) (u : ForwardedUrl)
    (rc : List (String × String)) : Prop :=
  (u.getParam "code").isSome = true ∧
  (getReqCookie rc (stateCookieName cfg)).isSome = true ∧
  u.getParam "state" = getReqCookie rc (stateCookieName cfg)

instance (cfg : Config) (u : ForwardedUrl) (rc : List (String × String)) :
    Decidable (callbackAccepts cfg u rc) :=
  inferInstanceAs (Decidable (_ ∧ _ ∧ _))

/-! ## Concrete request fixtures used by witnesses and counterexamples -/

/-- A concrete server configuration (insecure-cookie mode, default paths). -/
def cfgW : Config :=
  ⟨"test-client-id", "https://idp.example/authorize", ["openid", "email"], false,
   "/oauth2/callback", "/oauth2/logout"⟩

/-- A concrete callback request URL with matching `code`/`state`. -/
def uCb : ForwardedUrl :=
  ⟨"http", "app.example", "80", "/oauth2/callback", [("code", "c1"), ("state", "st1")]⟩

/-- A concrete protected-resource request URL. -/
def uOther : ForwardedUrl := ⟨"http", "app.example", "80", "/", []⟩

/-- A concrete logout request URL. -/
def uLogout : ForwardedUrl := ⟨"http", "app.example", "80", "/oauth2/logout", []⟩

/-- Request cookies carrying the matching state cookie. -/
def rcState : List (String × String) := [("state", "st1")]

/-- Request cookies carrying the session token. -/
def rcSession : List (String × String) := [("session", "tok1")]

/-- Host config whose upstream login returns one cookie with a 100-second
max-age and whose validation succeeds. -/
def hcCookie100 : HostConfig :=
  ⟨.ok ⟨200, [⟨"a", "b", some 100⟩]⟩, fun _ => .ok true⟩

/-- Host config with no upstream cookies, validation succeeds. -/
def hcEmptyOk : HostConfig := ⟨.ok ⟨200, []⟩, fun _ => .ok true⟩

/-- Host config with no upstream cookies, validation fails (returns false). -/
def hcEmptyFalse : HostConfig := ⟨.ok ⟨200, []⟩, fun _ => .ok false⟩

/-- Host config whose upstream login rejects (throws). -/
def hcLoginThrows : HostConfig := ⟨.error "login boom", fun _ => .ok true⟩

/-- Host config whose upstream validation rejects (throws). -/
def hcValidateThrows : HostConfig := ⟨.ok ⟨200, []⟩, fun _ => .error "validate boom"⟩

/-- Environment: successful exchange, upstream login yields the 100-second
cookie. -/
def envC1 : Env := ⟨1700000000000, "st1", "tok1", .success, .ok hcCookie100⟩

/-- Environment: successful exchange, empty upstream cookies, validation ok. -/
def envOk : Env := ⟨1700000000000, "st1", "tok1", .success, .ok hcEmptyOk⟩

/-- Environment: upstream validation returns false. -/
def envValFalse : Env := ⟨1700000000000, "st1", "tok1", .success, .ok hcEmptyFalse⟩

/-- Environment: host-config resolution throws. -/
def envHostThrows : Env := ⟨1700000000000, "st1", "tok1", .success, .error "host boom"⟩

/-- Environment: upstream login throws. -/
def envLoginThrows : Env := ⟨1700000000000, "st1", "tok1", .success, .ok hcLoginThrows⟩

/-- Environment: upstream validation throws. -/
def envValThrows : Env := ⟨1700000000000, "st1", "tok1", .success, .ok hcValidateThrows⟩

/-- Environment: provider rejected the grant. -/
def envOauthErr : Env := ⟨1700000000000, "st1", "tok1", .oauthError "invalid_grant", .ok hcEmptyOk⟩

/-- Environment: the token-exchange fetch failed. -/
def envFetchErr : Env := ⟨1700000000000, "st1", "tok1", .fetchError "ECONNREFUSED", .ok hcEmptyOk⟩

/-- Environment: some other exchange failure (e.g. parse error). -/
def envOtherErr : Env := ⟨1700000000000, "st1", "tok1", .otherError "Unexpected token", .ok hcEmptyOk⟩

/-- A store holding the session created for token `tok1` with empty upstream
cookies at `now = 1700000000000`. -/
def storeW : Store := (createSession 1700000000000 [] "tok1" "[]").2

/-- The session `validateSessionToken` returns for `tok1` against `storeW`
at the creation instant (outside the renewal window, so unchanged). -/
def sessW : Session := ⟨encodeSessionToken "tok1", 1702592000000, "[]"⟩

/-! ## Shared lemmas -/

/-- A digest serializes to exactly 32 bytes. -/
theorem stateBytes_length (st : ShaState) : (stateBytes st).length = 32 := by
  simp [stateBytes, wordBytes]

/-- Hex encoding doubles the byte count. -/
theorem length_flatMap_byteHex (bs : List Nat) : (bs.flatMap byteHex).length = 2 * bs.length := by
  induction bs with
  | nil => rfl
  | cons b bs ih => simp [byteHex, ih]; omega

/-- Every SHA-256 digest has 32 bytes. -/
theorem sha256_length (msg : List Nat) : (sha256 msg).length = 32 :=
  stateBytes_length _

/-- The session id produced by `encodeSessionToken` is always a 64-character
hex string, whatever the token. -/
theorem encodeSessionToken_length (t : String) : (encodeSessionToken t).length = 64 := by
  show ((sha256 (strBytes t)).flatMap byteHex).length = 64
  rw [length_flatMap_byteHex, sha256_length]

/-- A row found under key `k` has id `k`. -/
theorem findRow_eq_key {store : Store} {k : String} {r : Row}
    (h : findRow store k = some r) : r.id = k := by
  have := List.find?_some h
  exact eq_of_beq this

/-- Deleting an absent key leaves the store unchanged. -/
theorem deleteRow_of_none {store : Store} {k : String}
    (h : findRow store k = none) : deleteRow store k = store := by
  unfold findRow at h
  rw [List.find?_eq_none] at h
  unfold deleteRow
  rw [List.filter_eq_self]
  intro a ha
  have h2 := h a ha
  simpa [bne] using h2

/-- Looking up a key absent from the front of an appended store finds the
appended row when its id matches. -/
theorem findRow_append_right {store : Store} {k : String} {row : Row}
    (h : findRow store k = none) (hr : row.id = k) :
    findRow (store ++ [row]) k = some row := by
  induction store with
  | nil =>
    unfold findRow
    simp [List.find?_cons, hr]
  | cons r rs ih =>
    unfold findRow at h ih ⊢
    rw [List.find?_cons] at h
    cases hb : r.id == k with
    | true => rw [hb] at h; exact absurd h (by simp)
    | false =>
      rw [hb] at h
      rw [List.cons_append, List.find?_cons, hb]
      exact ih h

/-- Updating the expiry rewrites exactly the found row. -/
theorem findRow_updateRow {store : Store} {k : String} {e : Nat} :
    findRow (updateRow store k e) k =
      (findRow store k).map (fun r => ⟨r.id, e, r.upstream_cookies⟩) := by
  induction store with
  | nil => rfl
  | cons r rs ih =>
    unfold findRow at ih ⊢
    unfold updateRow at ih ⊢
    cases hb : r.id == k with
    | true =>
      simp only [List.map_cons, hb, if_true, List.find?_cons]
      have hb2 : ((⟨r.id, e, r.upstream_cookies⟩ : Row).id == k) = true := hb
      simp [hb2, hb]
    | false =>
      simp only [List.map_cons, hb]
      rw [List.find?_cons, List.find?_cons]
      simp only [hb, Bool.false_eq_true, if_false]
      exact ih

/-- `validateSessionToken` finds a freshly created session again: the lookup
key is the same hash the creation stored, so (before expiry) the created row
is returned, renewed or not. -/
theorem validate_created (now n2 : Nat) (store : Store) (t payload : String)
    (hfresh : findRow store (encodeSessionToken t) = none)
    (hlt : n2 < ((now + 30 * DAY_MS) / 1000) * 1000) :
    ∃ s st2, validateSessionToken n2 (createSession now store t payload).2 t = (some s, st2) ∧
      s.id = encodeSessionToken t ∧ s.upstreamCookies = payload := by
  unfold createSession validateSessionToken
  have hfind :
      findRow (store ++ [⟨encodeSessionToken t, (now + 30 * DAY_MS) / 1000, payload⟩])
        (encodeSessionToken t) =
      some ⟨encodeSessionToken t, (now + 30 * DAY_MS) / 1000, payload⟩ :=
    findRow_append_right hfresh rfl
  simp only [hfind]
  rw [if_neg (by omega : ¬ n2 ≥ (now + 30 * DAY_MS) / 1000 * 1000)]
  by_cases h2 : n2 ≥ (now + 30 * DAY_MS) / 1000 * 1000 - 15 * DAY_MS
  · rw [if_pos h2]
    exact ⟨_, _, rfl, rfl, rfl⟩
  · rw [if_neg h2]
    exact ⟨_, _, rfl, rfl, rfl⟩

/-- If a validation returned a session, validating the same token against the
store it left behind still returns a session (the record is still there). -/
theorem validate_some_again {now : Nat} {store : Store} {t : String} {s : Session}
    {store2 : Store} (h : validateSessionToken now store t = (some s, store2)) :
    (validateSessionToken now store2 t).1.isSome = true := by
  simp only [validateSessionToken] at h ⊢
  cases hf : findRow store (encodeSessionToken t) with
  | none => simp only [hf] at h; exact absurd h (by simp)
  | some row =>
    simp only [hf] at h
    have hid : row.id = encodeSessionToken t := findRow_eq_key hf
    by_cases h1 : now ≥ row.expires_at * 1000
    · rw [if_pos h1] at h; exact absurd h (by simp)
    · rw [if_neg h1] at h
      by_cases h2 : now ≥ row.expires_at * 1000 - 15 * DAY_MS
      · rw [if_pos h2] at h
        rw [Prod.mk.injEq] at h
        rw [← h.2, hid]
        have hupd := @findRow_updateRow store (encodeSessionToken t)
          ((now + 30 * DAY_MS) / 1000)
        rw [hf] at hupd
        simp only [Option.map] at hupd
        simp only [hupd]
        have hD : DAY_MS = 86400000 := rfl
        rw [if_neg (by omega : ¬ now ≥ (now + 30 * DAY_MS) / 1000 * 1000)]
        by_cases h3 : now ≥ (now + 30 * DAY_MS) / 1000 * 1000 - 15 * DAY_MS
        · rw [if_pos h3]; rfl
        · rw [if_neg h3]; rfl
      · rw [if_neg h2] at h
        rw [Prod.mk.injEq] at h
        rw [← h.2]
        simp only [hf]
        rw [if_neg h1, if_neg h2]; rfl

/-- A right fold by `min` stays below its base. -/
theorem foldr_min_le_init (l : List Int) (b : Int) : l.foldr min b ≤ b := by
  induction l with
  | nil => exact le_refl b
  | cons a l ih => exact le_trans (min_le_right a _) ih

/-- A right fold by `min` stays below each member. -/
theorem foldr_min_le_mem (l : List Int) (b a : Int) (ha : a ∈ l) :
    l.foldr min b ≤ a := by
  induction l with
  | nil => cases ha
  | cons c l ih =>
    rcases List.mem_cons.mp ha with hb | hl
    · rw [hb]; exact min_le_left _ _
    · exact le_trans (min_le_right c _) (ih hl)

/-- The session max-age never exceeds the 30-day cap. -/
theorem sessionMaxAge_le_cap (cs : List BunCookie) : sessionMaxAge cs ≤ 2592000 :=
  foldr_min_le_init _ _

/-- The session max-age is a lower bound of every upstream cookie max-age. -/
theorem sessionMaxAge_le_mem (cs : List BunCookie) (a : Int)
    (ha : a ∈ cs.filterMap BunCookie.maxAge) : sessionMaxAge cs ≤ a :=
  foldr_min_le_mem _ _ _ ha

/-- Full characterization of a successful callback: state validation passes,
the exchange succeeds, the host config resolves, upstream login is 2xx. -/
theorem handleCallback_success (cfg : Config) (env : Env) (u : ForwardedUrl)
    (rc : List (String × String)) (store : Store) (cde s : String)
    (hc : HostConfig) (resp : UpstreamResponse)
    (hCode : u.getParam "code" = some cde) (hCe : cde ≠ "")
    (hStored : getReqCookie rc (stateCookieName cfg) = some s) (hSe : s ≠ "")
    (hState : u.getParam "state" = some s)
    (hEx : env.exchange = .success)
    (hHC : env.hostConfig = .ok hc)
    (hUp : hc.getUpstreamCookies = .ok resp)
    (hOk : 200 ≤ resp.status ∧ resp.status ≤ 299) :
    handleCallback cfg env u rc store =
      ⟨.ok ⟨302, "", some ⟨u.origin, []⟩, [],
            [CookieOp.del (stateCookieName cfg),
             CookieOp.set (sessionCookieName cfg) env.generatedToken
               (some (sessionMaxAge resp.setCookies))]⟩,
       store ++ [⟨encodeSessionToken env.generatedToken,
                  (env.now + 30 * DAY_MS) / 1000, serializeCookies resp.setCookies⟩],
       true, true, true, false, none⟩ := by
  unfold handleCallback
  rw [hCode, hStored, hState]
  rw [if_neg (by simp [isFalsy, hCe, hSe])]
  simp only [hEx, hHC, hUp]
  rw [if_pos hOk]
  rfl

/-- Full characterization of the revalidation flow once a valid session was
found and its upstream-cookie payload parsed. -/
theorem handleOther_valid (cfg : Config) (env : Env) (u : ForwardedUrl)
    (rc : List (String × String)) (store store2 : Store) (t : String)
    (s : Session) (L : List BunCookie)
    (hTok : getReqCookie rc (sessionCookieName cfg) = some t) (hNe : t ≠ "")
    (hVal : validateSessionToken env.now store t = (some s, store2))
    (hParse : parseCookies s.upstreamCookies = some L) :
    handleOtherRequests cfg env u rc store =
      match env.hostConfig with
      | .error m => ⟨.error m, store2, false, true, false, false, none⟩
      | .ok hc =>
        match hc.validateUpstreamSession (getCookieHeader L) with
        | .error m =>
          ⟨.error m, store2, false, true, false, true, some (getCookieHeader L)⟩
        | .ok false =>
          ⟨.ok ⟨302, "", some (authorizationUrl cfg u env.generatedState), [],
                [CookieOp.del (sessionCookieName cfg),
                 CookieOp.set (stateCookieName cfg) env.generatedState (some 600)]⟩,
           invalidateSession store2 t, false, true, false, true,
           some (getCookieHeader L)⟩
        | .ok true =>
          ⟨.ok ⟨200, "OK", none, [("Cookie", getCookieHeader L)], []⟩, store2,
           false, true, false, true, some (getCookieHeader L)⟩ := by
  unfold handleOtherRequests
  simp only [hTok]
  rw [if_neg hNe]
  simp only [hVal, hParse]
  cases env.hostConfig with
  | error m => rfl
  | ok hc =>
    cases hv : hc.validateUpstreamSession (getCookieHeader L) with
    | error m => simp only [hv]
    | ok b => cases b <;> (simp only [hv]; try rfl)

/-! ## Claim theorems -/

/-- Claim C4 (confirmed): for every raw token, `validateSessionToken` hashes
the token and looks the row up by that hash; absent ⇒ absent; `now ≥
expiresAt` ⇒ the row is deleted and absent is returned; unexpired and
`expiresAt − now ≤ 15` days ⇒ the expiry is set to `now + 30` days, the
update persisted, and the renewed session returned; otherwise the session is
returned unchanged with no write. Stated as: the implementation coincides
with `validateSessionTokenSpec`, the direct transcription of the claim. -/
theorem c4_validate_refines_spec (now : Nat) (store : Store) (token : String) :
    validateSessionToken now store token = validateSessionTokenSpec now store token := by
  simp only [validateSessionToken, validateSessionTokenSpec]
  cases hf : findRow store (encodeSessionToken token) with
  | none => rfl
  | some row =>
    have hid : row.id = encodeSessionToken token := findRow_eq_key hf
    dsimp only
    by_cases h1 : now ≥ row.expires_at * 1000
    · rw [if_pos h1, if_pos h1, hid]
    · rw [if_neg h1, if_neg h1]
      by_cases h2 : now ≥ row.expires_at * 1000 - 15 * DAY_MS
      · have h2s : row.expires_at * 1000 - now ≤ 15 * DAY_MS := by omega
        rw [if_pos h2, if_pos h2s, hid]
      · have h2s : ¬ row.expires_at * 1000 - now ≤ 15 * DAY_MS := by omega
        rw [if_neg h2, if_neg h2s, hid]

/-- Claim C9 (confirmed): token hashing is deterministic and the store never
sees the raw token. The id always has 64 hex characters; `createSession`
persists exactly `encodeSessionToken token` as the row id, and every stored
field depends on the token only through its hash (so equal hashes give equal
rows — the raw token itself is never written); `validateSessionToken` derives
its lookup key by the same encoding, so a freshly created session is found
again by the raw token; and the stored id differs from every token whose
length is not 64 (in particular from the 32-character generated tokens). -/
theorem c9_token_hashing :
    (∀ t, (encodeSessionToken t).length = 64) ∧
    (∀ now store t payload,
       createSession now store t payload =
         (⟨encodeSessionToken t, now + 30 * DAY_MS, payload⟩,
          store ++ [⟨encodeSessionToken t, (now + 30 * DAY_MS) / 1000, payload⟩])) ∧
    (∀ now store t t2 payload, encodeSessionToken t = encodeSessionToken t2 →
       createSession now store t payload = createSession now store t2 payload) ∧
    (∀ now n2 store t payload,
       findRow store (encodeSessionToken t) = none →
       n2 < (now + 30 * DAY_MS) / 1000 * 1000 →
       ∃ s st2, validateSessionToken n2 (createSession now store t payload).2 t = (some s, st2) ∧
         s.id = encodeSessionToken t ∧ s.upstreamCookies = payload) ∧
    (∀ t, t.length ≠ 64 → encodeSessionToken t ≠ t) := by
  refine ⟨encodeSessionToken_length, fun now store t payload => rfl, ?_, ?_, ?_⟩
  · intro now store t t2 payload h
    simp [createSession, h]
  · intro now n2 store t payload hfresh hlt
    exact validate_created now n2 store t payload hfresh hlt
  · intro t hlen heq
    apply hlen
    rw [← heq]
    exact (encodeSessionToken_length t).symm

/-- Witness for C9: instantiates the hash-stability, created-session-lookup
and id-differs-from-token conjuncts at concrete inputs. -/
theorem c9_token_hashing_witness :
    createSession 0 [] "x" "[]" = createSession 0 [] "x" "[]" ∧
    (∃ s st2, validateSessionToken 0 (createSession 0 [] "tokenZ" "[]").2 "tokenZ" = (some s, st2) ∧
       s.id = encodeSessionToken "tokenZ" ∧ s.upstreamCookies = "[]") ∧
    encodeSessionToken "tokenZ" ≠ "tokenZ" :=
  ⟨c9_token_hashing.2.2.1 0 [] "x" "x" "[]" rfl,
   c9_token_hashing.2.2.2.1 0 0 [] "tokenZ" "[]" rfl (by decide),
   c9_token_hashing.2.2.2.2 "tokenZ" (by decide)⟩

/-- An option that is not JavaScript-falsy is present. -/
theorem not_falsy_isSome {o : Option String} (h : ¬ isFalsy o) : o.isSome = true := by
  cases o with
  | none => exact absurd trivial h
  | some s => rfl

/-- Claim C3 (confirmed): on every callback request the state cookie deletion
is the first cookie operation of the response whatever the outcome (single
use); the flow runs the token exchange only if `code` is present, the stored
state cookie is present, and the cookie equals the `state` parameter
(`callbackAccepts`); and whenever that acceptance condition fails the
response is the 400 `Invalid state or missing code. Please try again.` with
no token exchange, no host-config resolution, no upstream call and no change
to the store. -/
theorem c3_state_single_use (cfg : Config) (env : Env) (u : ForwardedUrl)
    (rc : List (String × String)) (store : Store) :
    ∃ resp, (handleCallback cfg env u rc store).result = .ok resp ∧
      resp.cookieOps.head? = some (.del (stateCookieName cfg)) ∧
      (¬ callbackAccepts cfg u rc →
        resp.status = 400 ∧ resp.body = invalidStateBody ∧
        (handleCallback cfg env u rc store).store = store ∧
        (handleCallback cfg env u rc store).calledExchange = false ∧
        (handleCallback cfg env u rc store).calledGetHostConfig = false ∧
        (handleCallback cfg env u rc store).calledGetUpstreamCookies = false) ∧
      ((handleCallback cfg env u rc store).calledExchange = true →
        callbackAccepts cfg u rc) := by
  unfold handleCallback
  by_cases hcond : isFalsy (u.getParam "code") ∨
      isFalsy (getReqCookie rc (stateCookieName cfg)) ∨
      u.getParam "state" ≠ getReqCookie rc (stateCookieName cfg)
  · rw [if_pos hcond]
    exact ⟨_, rfl, rfl, fun _ => ⟨rfl, rfl, rfl, rfl, rfl, rfl⟩,
      fun hex => absurd hex (by simp)⟩
  · rw [if_neg hcond]
    push_neg at hcond
    obtain ⟨hc1, hc2, hc3⟩ := hcond
    have hacc : callbackAccepts cfg u rc :=
      ⟨not_falsy_isSome hc1, not_falsy_isSome hc2, hc3⟩
    cases env.exchange with
    | success =>
      dsimp only
      cases env.hostConfig with
      | error m =>
        exact ⟨_, rfl, rfl, fun hna => absurd hacc hna, fun _ => hacc⟩
      | ok hc =>
        dsimp only
        cases hc.getUpstreamCookies with
        | error m =>
          exact ⟨_, rfl, rfl, fun hna => absurd hacc hna, fun _ => hacc⟩
        | ok resp =>
          dsimp only
          by_cases hok : 200 ≤ resp.status ∧ resp.status ≤ 299
          · rw [if_pos hok]
            exact ⟨_, rfl, rfl, fun hna => absurd hacc hna, fun _ => hacc⟩
          · rw [if_neg hok]
            exact ⟨_, rfl, rfl, fun hna => absurd hacc hna, fun _ => hacc⟩
    | oauthError c =>
      exact ⟨_, rfl, rfl, fun hna => absurd hacc hna, fun _ => hacc⟩
    | fetchError m =>
      exact ⟨_, rfl, rfl, fun hna => absurd hacc hna, fun _ => hacc⟩
    | otherError m =>
      exact ⟨_, rfl, rfl, fun hna => absurd hacc hna, fun _ => hacc⟩

/-- Witness for C3: a callback carrying no `code` parameter gets the 400 with
the state cookie deleted, an unchanged store, and no exchange attempted. -/
theorem c3_state_single_use_witness :
    ∃ resp,
      (handleCallback cfgW envOk ⟨"http", "app.example", "80", "/oauth2/callback", []⟩
        [] []).result = .ok resp ∧
      resp.cookieOps.head? = some (.del (stateCookieName cfgW)) ∧
      resp.status = 400 ∧ resp.body = invalidStateBody ∧
      (handleCallback cfgW envOk ⟨"http", "app.example", "80", "/oauth2/callback", []⟩
        [] []).store = [] ∧
      (handleCallback cfgW envOk ⟨"http", "app.example", "80", "/oauth2/callback", []⟩
        [] []).calledExchange = false := by
  obtain ⟨resp, h1, h2, h3, h4⟩ :=
    c3_state_single_use cfgW envOk ⟨"http", "app.example", "80", "/oauth2/callback", []⟩ [] []
  have hna : ¬ callbackAccepts cfgW ⟨"http", "app.example", "80", "/oauth2/callback", []⟩ [] := by
    decide
  obtain ⟨hs, hb, hst, hce, _, _⟩ := h3 hna
  exact ⟨resp, h1, h2, hs, hb, hst, hce⟩

/-- Counterexample to claim C1: a successful callback whose single upstream
cookie has a 100-second max-age. The session cookie is set with max-age 100
(the minimum), but the persisted record's expiry is the full 30 days
(`1700000000000 / 1000 + 2592000 = 1702592000` seconds), not the claimed
minimum `1700000100` — so the persisted `expiresAt` does not equal the
minimum of the upstream cookie max-ages and the cap. -/
theorem c1_counterexample :
    (handleCallback cfgW envC1 uCb rcState []).store.map Row.expires_at = [1702592000] ∧
    sessionMaxAge [⟨"a", "b", (some 100 : Option Int)⟩] = 100 ∧
    (∃ resp, (handleCallback cfgW envC1 uCb rcState []).result = .ok resp ∧
       resp.cookieOps = [.del "state", .set "session" "tok1" (some 100)]) ∧
    (1702592000 : Nat) ≠ (1700000000000 + 100 * 1000) / 1000 := by
  refine ⟨rfl, rfl, ⟨_, rfl, rfl⟩, by decide⟩

/-- Claim C1 (corrected): for every successful callback the session cookie's
max-age is the minimum of the upstream cookie max-ages and the 30-day cap,
but the persisted record's `expiresAt` is always `now + 30` days (floored to
seconds), independent of the upstream max-ages. -/
theorem c1_session_expiry (cfg : Config) (env : Env) (u : ForwardedUrl)
    (rc : List (String × String)) (store : Store) (cde s : String)
    (hc : HostConfig) (resp : UpstreamResponse)
    (hCode : u.getParam "code" = some cde) (hCe : cde ≠ "")
    (hStored : getReqCookie rc (stateCookieName cfg) = some s) (hSe : s ≠ "")
    (hState : u.getParam "state" = some s)
    (hEx : env.exchange = .success)
    (hHC : env.hostConfig = .ok hc)
    (hUp : hc.getUpstreamCookies = .ok resp)
    (hOk : 200 ≤ resp.status ∧ resp.status ≤ 299) :
    (handleCallback cfg env u rc store).store =
      store ++ [⟨encodeSessionToken env.generatedToken,
                 (env.now + 30 * DAY_MS) / 1000, serializeCookies resp.setCookies⟩] ∧
    (∃ r, (handleCallback cfg env u rc store).result = .ok r ∧
       r.cookieOps = [.del (stateCookieName cfg),
                      .set (sessionCookieName cfg) env.generatedToken
                        (some (sessionMaxAge resp.setCookies))]) ∧
    sessionMaxAge resp.setCookies ≤ 2592000 ∧
    (∀ a ∈ resp.setCookies.filterMap BunCookie.maxAge,
       sessionMaxAge resp.setCookies ≤ a) := by
  rw [handleCallback_success cfg env u rc store cde s hc resp hCode hCe hStored hSe
    hState hEx hHC hUp hOk]
  exact ⟨rfl, ⟨_, rfl, rfl⟩, sessionMaxAge_le_cap _,
    fun a ha => sessionMaxAge_le_mem _ a ha⟩

/-- Witness for C1: the concrete successful callback with the 100-second
upstream cookie. -/
theorem c1_session_expiry_witness :
    (handleCallback cfgW envC1 uCb rcState []).store =
      [] ++ [⟨encodeSessionToken "tok1", (1700000000000 + 30 * DAY_MS) / 1000,
              serializeCookies [⟨"a", "b", some 100⟩]⟩] ∧
    (∃ r, (handleCallback cfgW envC1 uCb rcState []).result = .ok r ∧
       r.cookieOps = [.del (stateCookieName cfgW),
                      .set (sessionCookieName cfgW) "tok1"
                        (some (sessionMaxAge [⟨"a", "b", some 100⟩]))]) ∧
    sessionMaxAge [⟨"a", "b", some 100⟩] ≤ 2592000 ∧
    (∀ a ∈ ([⟨"a", "b", some 100⟩] : List BunCookie).filterMap BunCookie.maxAge,
       sessionMaxAge [⟨"a", "b", some 100⟩] ≤ a) :=
  c1_session_expiry cfgW envC1 uCb rcState [] "c1" "st1" hcCookie100 ⟨200, [⟨"a", "b", some 100⟩]⟩
    rfl (by decide) rfl (by decide) rfl rfl rfl rfl (by decide)

/-- Counterexample to claim C5: a logout request presenting a session cookie
whose session is persisted in the store. The response is the 401 with
`Clear-Site-Data` and the session-cookie deletion, but the store is left
untouched — the persisted record is not deleted (a later validation of the
same token still succeeds), contradicting the claim's final conjunct. -/
theorem c5_counterexample :
    (handleForwardAuth cfgW envOk uLogout rcSession storeW).result =
      .ok ⟨401, logoutBody uLogout, none, [("Clear-Site-Data", "\"cookies\"")],
           [.del "session"]⟩ ∧
    (handleForwardAuth cfgW envOk uLogout rcSession storeW).store = storeW ∧
    storeW ≠ [] ∧
    (validateSessionToken 1700000000000
      (handleForwardAuth cfgW envOk uLogout rcSession storeW).store "tok1").1.isSome = true := by
  refine ⟨rfl, rfl, by decide, by decide⟩

/-- Claim C5 (corrected): every request to the logout path — session cookie
or not — yields 401 with `Clear-Site-Data: "cookies"` and deletes the session
cookie; but the Credential Store is never touched: the persisted session
record survives logout (only the cookie is removed). -/
theorem c5_logout (cfg : Config) (env : Env) (u : ForwardedUrl)
    (rc : List (String × String)) (store : Store)
    (hPath : u.pathname = cfg.logoutPath)
    (hDistinct : cfg.callbackPath ≠ cfg.logoutPath) :
    handleForwardAuth cfg env u rc store =
      ⟨.ok ⟨401, logoutBody u, none, [("Clear-Site-Data", "\"cookies\"")],
            [CookieOp.del (sessionCookieName cfg)]⟩, store,
       false, false, false, false, none⟩ := by
  unfold handleForwardAuth
  rw [hPath, if_neg (fun hh => hDistinct hh.symm), if_pos rfl]

/-- Witness for C5: the concrete logout request with a live session. -/
theorem c5_logout_witness :
    handleForwardAuth cfgW envOk uLogout rcSession storeW =
      ⟨.ok ⟨401, logoutBody uLogout, none, [("Clear-Site-Data", "\"cookies\"")],
            [CookieOp.del (sessionCookieName cfgW)]⟩, storeW,
       false, false, false, false, none⟩ :=
  c5_logout cfgW envOk uLogout rcSession storeW rfl (by decide)

/-- Counterexample to claim C6: a revalidation request with a live session
where host-config resolution throws. The exception escapes `handleOtherRequests`
(`result = .error`) instead of being converted to a 502 response — a
capability throw does propagate past the Session Controller in the
revalidation flow. -/
theorem c6_counterexample :
    (handleOtherRequests cfgW envHostThrows uOther rcSession storeW).result =
      .error "host boom" ∧
    (handleOtherRequests cfgW envHostThrows uOther rcSession storeW).calledGetHostConfig = true := by
  exact ⟨rfl, rfl⟩

/-- Claim C6 (corrected): in the callback flow, failures of host-config
resolution and upstream login thrown across the capability boundary are
caught and converted to the typed 502; but in the revalidation flow the
host-config and upstream-validate capabilities are invoked outside any
try/catch, so their throws propagate past the Session Controller as unhandled
faults rather than becoming 502s. -/
theorem c6_capability_throws :
    (∀ cfg env u rc store cde s m,
       u.getParam "code" = some cde → cde ≠ "" →
       getReqCookie rc (stateCookieName cfg) = some s → s ≠ "" →
       u.getParam "state" = some s →
       env.exchange = .success →
       env.hostConfig = .error m →
       (handleCallback cfg env u rc store).result =
         .ok ⟨502, upstreamFailBody m, none, [], [.del (stateCookieName cfg)]⟩) ∧
    (∀ cfg env u rc store cde s hc m,
       u.getParam "code" = some cde → cde ≠ "" →
       getReqCookie rc (stateCookieName cfg) = some s → s ≠ "" →
       u.getParam "state" = some s →
       env.exchange = .success →
       env.hostConfig = .ok hc →
       hc.getUpstreamCookies = .error m →
       (handleCallback cfg env u rc store).result =
         .ok ⟨502, upstreamFailBody m, none, [], [.del (stateCookieName cfg)]⟩) ∧
    (∀ cfg env u rc store store2 t s L m,
       getReqCookie rc (sessionCookieName cfg) = some t → t ≠ "" →
       validateSessionToken env.now store t = (some s, store2) →
       parseCookies s.upstreamCookies = some L →
       env.hostConfig = .error m →
       (handleOtherRequests cfg env u rc store).result = .error m) ∧
    (∀ cfg env u rc store store2 t s L hc m,
       getReqCookie rc (sessionCookieName cfg) = some t → t ≠ "" →
       validateSessionToken env.now store t = (some s, store2) →
       parseCookies s.upstreamCookies = some L →
       env.hostConfig = .ok hc →
       hc.validateUpstreamSession (getCookieHeader L) = .error m →
       (handleOtherRequests cfg env u rc store).result = .error m) := by
  refine ⟨?_, ?_, ?_, ?_⟩
  · intro cfg env u rc store cde s m hCode hCe hStored hSe hState hEx hHC
    unfold handleCallback
    rw [hCode, hStored, hState]
    rw [if_neg (by simp [isFalsy, hCe, hSe])]
    simp only [hEx, hHC]
  · intro cfg env u rc store cde s hc m hCode hCe hStored hSe hState hEx hHC hUp
    unfold handleCallback
    rw [hCode, hStored, hState]
    rw [if_neg (by simp [isFalsy, hCe, hSe])]
    simp only [hEx, hHC, hUp]
  · intro cfg env u rc store store2 t s L m hTok hNe hVal hParse hHC
    rw [handleOther_valid cfg env u rc store store2 t s L hTok hNe hVal hParse]
    simp only [hHC]
  · intro cfg env u rc store store2 t s L hc m hTok hNe hVal hParse hHC hv
    rw [handleOther_valid cfg env u rc store store2 t s L hTok hNe hVal hParse]
    simp only [hHC, hv]

/-- Witness for C6: the four conjuncts at concrete requests — host-config
throw and upstream-login throw during a callback (both 502), and host-config
throw and upstream-validate throw during revalidation (both escaping). -/
theorem c6_capability_throws_witness :
    (handleCallback cfgW envHostThrows uCb rcState []).result =
      .ok ⟨502, upstreamFailBody "host boom", none, [], [.del (stateCookieName cfgW)]⟩ ∧
    (handleCallback cfgW envLoginThrows uCb rcState []).result =
      .ok ⟨502, upstreamFailBody "login boom", none, [], [.del (stateCookieName cfgW)]⟩ ∧
    (handleOtherRequests cfgW envHostThrows uOther rcSession storeW).result =
      .error "host boom" ∧
    (handleOtherRequests cfgW envValThrows uOther rcSession storeW).result =
      .error "validate boom" :=
  ⟨c6_capability_throws.1 cfgW envHostThrows uCb rcState [] "c1" "st1" "host boom"
     rfl (by decide) rfl (by decide) rfl rfl rfl,
   c6_capability_throws.2.1 cfgW envLoginThrows uCb rcState [] "c1" "st1" hcLoginThrows
     "login boom" rfl (by decide) rfl (by decide) rfl rfl rfl rfl,
   c6_capability_throws.2.2.1 cfgW envHostThrows uOther rcSession storeW storeW "tok1" sessW
     [] "host boom" rfl (by decide) (by decide) (by decide) rfl,
   c6_capability_throws.2.2.2 cfgW envValThrows uOther rcSession storeW storeW "tok1" sessW
     [] hcValidateThrows "validate boom" rfl (by decide) (by decide) (by decide) rfl rfl⟩

/-- Claim C8 (confirmed): once state validation has passed, the callback
handler always returns a response (no exchange failure is rethrown), and the
token-exchange failure kinds map exactly to: provider-rejected grant ⇒ 401
with the provider error code in the body; transport failure ⇒ 502; any other
failure ⇒ 500 with the generic message. -/
theorem c8_exchange_failures (cfg : Config) (env : Env) (u : ForwardedUrl)
    (rc : List (String × String)) (store : Store) (cde s : String)
    (hCode : u.getParam "code" = some cde) (hCe : cde ≠ "")
    (hStored : getReqCookie rc (stateCookieName cfg) = some s) (hSe : s ≠ "")
    (hState : u.getParam "state" = some s) :
    (∃ resp, (handleCallback cfg env u rc store).result = .ok resp) ∧
    (∀ c, env.exchange = .oauthError c →
       (handleCallback cfg env u rc store).result =
         .ok ⟨401, "Error: " ++ c, none, [], [.del (stateCookieName cfg)]⟩) ∧
    (∀ m, env.exchange = .fetchError m →
       (handleCallback cfg env u rc store).result =
         .ok ⟨502, "Error: " ++ m, none, [], [.del (stateCookieName cfg)]⟩) ∧
    (∀ m, env.exchange = .otherError m →
       (handleCallback cfg env u rc store).result =
         .ok ⟨500, "An unexpected error occurred: " ++ m, none, [],
              [.del (stateCookieName cfg)]⟩) := by
  unfold handleCallback
  rw [hCode, hStored, hState]
  rw [if_neg (by simp [isFalsy, hCe, hSe])]
  refine ⟨?_, ?_, ?_, ?_⟩
  · cases env.exchange with
    | success =>
      dsimp only
      cases env.hostConfig with
      | error m => exact ⟨_, rfl⟩
      | ok hc =>
        dsimp only
        cases hc.getUpstreamCookies with
        | error m => exact ⟨_, rfl⟩
        | ok resp =>
          dsimp only
          by_cases hok : 200 ≤ resp.status ∧ resp.status ≤ 299
          · rw [if_pos hok]; exact ⟨_, rfl⟩
          · rw [if_neg hok]; exact ⟨_, rfl⟩
    | oauthError c => exact ⟨_, rfl⟩
    | fetchError m => exact ⟨_, rfl⟩
    | otherError m => exact ⟨_, rfl⟩
  · intro c hce
    simp only [hce]
  · intro m hm
    simp only [hm]
  · intro m hm
    simp only [hm]

/-- Witness for C8: the three exchange-failure kinds at a concrete callback
whose validation passes. -/
theorem c8_exchange_failures_witness :
    (handleCallback cfgW envOauthErr uCb rcState []).result =
      .ok ⟨401, "Error: " ++ "invalid_grant", none, [], [.del (stateCookieName cfgW)]⟩ ∧
    (handleCallback cfgW envFetchErr uCb rcState []).result =
      .ok ⟨502, "Error: " ++ "ECONNREFUSED", none, [], [.del (stateCookieName cfgW)]⟩ ∧
    (handleCallback cfgW envOtherErr uCb rcState []).result =
      .ok ⟨500, "An unexpected error occurred: " ++ "Unexpected token", none, [],
           [.del (stateCookieName cfgW)]⟩ :=
  ⟨(c8_exchange_failures cfgW envOauthErr uCb rcState [] "c1" "st1"
      rfl (by decide) rfl (by decide) rfl).2.1 "invalid_grant" rfl,
   (c8_exchange_failures cfgW envFetchErr uCb rcState [] "c1" "st1"
      rfl (by decide) rfl (by decide) rfl).2.2.1 "ECONNREFUSED" rfl,
   (c8_exchange_failures cfgW envOtherErr uCb rcState [] "c1" "st1"
      rfl (by decide) rfl (by decide) rfl).2.2.2 "Unexpected token" rfl⟩

/-- Claim C7 (confirmed): a forwarded request with all four headers present
(non-empty), no session cookie, and a pathname that is none of the callback,
logout or health paths gets a 302 to the authorization endpoint carrying
`response_type=code`, the configured client id, a redirect URI equal to the
forwarded origin plus the callback path, the configured scopes space-joined,
and a non-empty `state` equal to the value of the state cookie set on the
same response with a 10-minute (600-second) max-age. -/
theorem c7_redirect_to_auth (cfg : Config) (env : Env)
    (p hst prt pth : String) (rc : List (String × String)) (store : Store)
    (u : ForwardedUrl) (hu : u = parseForwardedUrl p hst prt pth)
    (hp : p ≠ "") (hh : hst ≠ "") (hprt : prt ≠ "") (hpth : pth ≠ "")
    (hcb : u.pathname ≠ cfg.callbackPath) (hlo : u.pathname ≠ cfg.logoutPath)
    (hhz : u.pathname ≠ "/healthz")
    (hsess : getReqCookie rc (sessionCookieName cfg) = none)
    (hscopes : cfg.scopes ≠ []) (hstate : env.generatedState ≠ "") :
    routeForwardAuth cfg env (some p) (some hst) (some prt) (some pth) rc store =
      ⟨.ok (redirectToAuth cfg env u), store, false, false, false, false, none⟩ ∧
    (redirectToAuth cfg env u).status = 302 ∧
    (redirectToAuth cfg env u).location = some (authorizationUrl cfg u env.generatedState) ∧
    (authorizationUrl cfg u env.generatedState).getParam "response_type" = some "code" ∧
    (authorizationUrl cfg u env.generatedState).getParam "client_id" = some cfg.clientId ∧
    (authorizationUrl cfg u env.generatedState).getParam "redirect_uri" =
      some (u.origin ++ cfg.callbackPath) ∧
    (authorizationUrl cfg u env.generatedState).getParam "scope" =
      some (String.intercalate " " cfg.scopes) ∧
    (authorizationUrl cfg u env.generatedState).getParam "state" = some env.generatedState ∧
    env.generatedState ≠ "" ∧
    (redirectToAuth cfg env u).cookieOps =
      [.set (stateCookieName cfg) env.generatedState (some 600)] := by
  subst hu
  refine ⟨?_, rfl, rfl, rfl, rfl, rfl, ?_, rfl, hstate, rfl⟩
  · unfold routeForwardAuth
    dsimp only
    rw [if_neg (by simp [hp, hh, hprt, hpth])]
    unfold handleForwardAuth
    rw [if_neg hcb, if_neg hlo]
    unfold handleOtherRequests
    simp only [hsess]
  · unfold authorizationUrl UrlModel.getParam
    rw [if_neg hscopes]
    rfl

/-- Witness for C7: a concrete forwarded request for `/some/page` with no
cookies. -/
theorem c7_redirect_to_auth_witness :
    routeForwardAuth cfgW envOk (some "http") (some "app.example") (some "80")
        (some "/some/page") [] [] =
      ⟨.ok (redirectToAuth cfgW envOk (parseForwardedUrl "http" "app.example" "80" "/some/page")),
       [], false, false, false, false, none⟩ ∧
    (redirectToAuth cfgW envOk (parseForwardedUrl "http" "app.example" "80" "/some/page")).status = 302 ∧
    (redirectToAuth cfgW envOk (parseForwardedUrl "http" "app.example" "80" "/some/page")).location =
      some (authorizationUrl cfgW (parseForwardedUrl "http" "app.example" "80" "/some/page") "st1") ∧
    (authorizationUrl cfgW (parseForwardedUrl "http" "app.example" "80" "/some/page") "st1").getParam
      "response_type" = some "code" ∧
    (authorizationUrl cfgW (parseForwardedUrl "http" "app.example" "80" "/some/page") "st1").getParam
      "client_id" = some cfgW.clientId ∧
    (authorizationUrl cfgW (parseForwardedUrl "http" "app.example" "80" "/some/page") "st1").getParam
      "redirect_uri" =
      some ((parseForwardedUrl "http" "app.example" "80" "/some/page").origin ++ cfgW.callbackPath) ∧
    (authorizationUrl cfgW (parseForwardedUrl "http" "app.example" "80" "/some/page") "st1").getParam
      "scope" = some (String.intercalate " " cfgW.scopes) ∧
    (authorizationUrl cfgW (parseForwardedUrl "http" "app.example" "80" "/some/page") "st1").getParam
      "state" = some "st1" ∧
    ("st1" : String) ≠ "" ∧
    (redirectToAuth cfgW envOk (parseForwardedUrl "http" "app.example" "80" "/some/page")).cookieOps =
      [.set (stateCookieName cfgW) "st1" (some 600)] :=
  c7_redirect_to_auth cfgW envOk "http" "app.example" "80" "/some/page" [] []
    (parseForwardedUrl "http" "app.example" "80" "/some/page") rfl
    (by decide) (by decide) (by decide) (by decide)
    (by decide) (by decide) (by decide) rfl (by decide) (by decide)

/-- Claim C2 (code bug): a revalidation whose upstream-validate returns false
does delete the session cookie and redirect with 302, but the store record
survives: `invalidateSession` is called with the raw session token while row
ids are the 64-character token hashes, so the delete matches nothing
(`hNoRaw`), the store is returned exactly as validation left it, and a
subsequent `validateSessionToken` of the same token still finds the session —
contradicting the claim that the record is removed and the lookup returns
absent. -/
theorem c2_invalidate_uses_raw_token (cfg : Config) (env : Env) (u : ForwardedUrl)
    (rc : List (String × String)) (store store2 : Store) (t : String)
    (s : Session) (L : List BunCookie) (hc : HostConfig)
    (hTok : getReqCookie rc (sessionCookieName cfg) = some t) (hNe : t ≠ "")
    (hVal : validateSessionToken env.now store t = (some s, store2))
    (hParse : parseCookies s.upstreamCookies = some L)
    (hHC : env.hostConfig = .ok hc)
    (hFalse : hc.validateUpstreamSession (getCookieHeader L) = .ok false)
    (hNoRaw : findRow store2 t = none) :
    (∃ resp, (handleOtherRequests cfg env u rc store).result = .ok resp ∧
       resp.status = 302 ∧
       resp.cookieOps.head? = some (.del (sessionCookieName cfg))) ∧
    (handleOtherRequests cfg env u rc store).store = store2 ∧
    (validateSessionToken env.now (handleOtherRequests cfg env u rc store).store t).1.isSome
      = true := by
  rw [handleOther_valid cfg env u rc store store2 t s L hTok hNe hVal hParse]
  simp only [hHC, hFalse]
  have hinv : invalidateSession store2 t = store2 := deleteRow_of_none hNoRaw
  refine ⟨⟨_, rfl, rfl, rfl⟩, hinv, ?_⟩
  show (validateSessionToken env.now (invalidateSession store2 t) t).1.isSome = true
  rw [hinv]
  exact validate_some_again hVal

/-- Witness for C2: the failing input — token `tok1`, its created session in
the store, upstream-validate returning false. The record survives and the
subsequent lookup still succeeds. -/
theorem c2_invalidate_uses_raw_token_witness :
    (∃ resp, (handleOtherRequests cfgW envValFalse uOther rcSession storeW).result = .ok resp ∧
       resp.status = 302 ∧
       resp.cookieOps.head? = some (.del (sessionCookieName cfgW))) ∧
    (handleOtherRequests cfgW envValFalse uOther rcSession storeW).store = storeW ∧
    (validateSessionToken 1700000000000
      (handleOtherRequests cfgW envValFalse uOther rcSession storeW).store "tok1").1.isSome
      = true :=
  c2_invalidate_uses_raw_token cfgW envValFalse uOther rcSession storeW storeW "tok1" sessW
    [] hcEmptyFalse rfl (by decide) (by decide) (by decide) rfl rfl (by decide)

/-- Claim C10 (confirmed): a successful callback whose 2xx upstream login set
no cookies still establishes a session — the persisted payload is the empty
list `[]`, the session cookie max-age is exactly the 30-day cap 2592000 (the
minimum over no max-ages and the cap) — and every subsequent revalidation
that reaches the upstream-validate capability passes it the empty `Cookie`
header value. -/
theorem c10_empty_upstream_cookies (cfg : Config) (env : Env) (u : ForwardedUrl)
    (rc : List (String × String)) (store : Store) (cde s : String)
    (hc : HostConfig) (resp : UpstreamResponse)
    (hCode : u.getParam "code" = some cde) (hCe : cde ≠ "")
    (hStored : getReqCookie rc (stateCookieName cfg) = some s) (hSe : s ≠ "")
    (hState : u.getParam "state" = some s)
    (hEx : env.exchange = .success)
    (hHC : env.hostConfig = .ok hc)
    (hUp : hc.getUpstreamCookies = .ok resp)
    (hOk : 200 ≤ resp.status ∧ resp.status ≤ 299)
    (hEmpty : resp.setCookies = []) :
    (handleCallback cfg env u rc store).store =
      store ++ [⟨encodeSessionToken env.generatedToken,
                 (env.now + 30 * DAY_MS) / 1000, "[]"⟩] ∧
    (∃ r, (handleCallback cfg env u rc store).result = .ok r ∧
       r.cookieOps = [.del (stateCookieName cfg),
                      .set (sessionCookieName cfg) env.generatedToken (some 2592000)]) ∧
    (∀ env2 u2 rc2 hc2,
       getReqCookie rc2 (sessionCookieName cfg) = some env.generatedToken →
       env.generatedToken ≠ "" →
       findRow store (encodeSessionToken env.generatedToken) = none →
       env2.now < (env.now + 30 * DAY_MS) / 1000 * 1000 →
       env2.hostConfig = .ok hc2 →
       (handleOtherRequests cfg env2 u2 rc2
           (handleCallback cfg env u rc store).store).calledValidateUpstream = true ∧
       (handleOtherRequests cfg env2 u2 rc2
           (handleCallback cfg env u rc store).store).validateArg = some "") := by
  rw [handleCallback_success cfg env u rc store cde s hc resp hCode hCe hStored hSe
    hState hEx hHC hUp hOk, hEmpty]
  refine ⟨rfl, ⟨_, rfl, rfl⟩, ?_⟩
  intro env2 u2 rc2 hc2 hTok2 hNe2 hFresh hTime hHC2
  dsimp only
  rw [show serializeCookies ([] : List BunCookie) = "[]" from rfl]
  obtain ⟨s2, st2, hval2, hid2, hcook2⟩ :=
    validate_created env.now env2.now store env.generatedToken "[]" hFresh hTime
  have hval3 : validateSessionToken env2.now
      (store ++ [⟨encodeSessionToken env.generatedToken,
                  (env.now + 30 * DAY_MS) / 1000, "[]"⟩]) env.generatedToken =
      (some s2, st2) := hval2
  have hparse2 : parseCookies s2.upstreamCookies = some [] := by
    rw [hcook2]; rfl
  rw [handleOther_valid cfg env2 u2 rc2 _ st2 env.generatedToken s2 []
    hTok2 hNe2 hval3 hparse2]
  rw [show getCookieHeader ([] : List BunCookie) = "" from rfl]
  cases hhv : hc2.validateUpstreamSession "" with
  | error m => simp [hHC2, hhv]
  | ok b =>
    cases b with
    | false => simp [hHC2, hhv]
    | true => simp [hHC2, hhv]

/-- Witness for C10: the concrete cookie-less upstream login followed by a
revalidation of the issued token. -/
theorem c10_empty_upstream_cookies_witness :
    (handleCallback cfgW envOk uCb rcState []).store =
      [] ++ [⟨encodeSessionToken "tok1", (1700000000000 + 30 * DAY_MS) / 1000, "[]"⟩] ∧
    (∃ r, (handleCallback cfgW envOk uCb rcState []).result = .ok r ∧
       r.cookieOps = [.del (stateCookieName cfgW),
                      .set (sessionCookieName cfgW) "tok1" (some 2592000)]) ∧
    ((handleOtherRequests cfgW envOk uOther rcSession
        (handleCallback cfgW envOk uCb rcState []).store).calledValidateUpstream = true ∧
     (handleOtherRequests cfgW envOk uOther rcSession
        (handleCallback cfgW envOk uCb rcState []).store).validateArg = some "") := by
  obtain ⟨h1, h2, h3⟩ :=
    c10_empty_upstream_cookies cfgW envOk uCb rcState [] "c1" "st1" hcEmptyOk ⟨200, []⟩
      rfl (by decide) rfl (by decide) rfl rfl rfl rfl (by decide) rfl
  exact ⟨h1, h2, h3 envOk uOther rcSession hcEmptyOk rfl (by decide) rfl (by decide) rfl⟩

end OidcForwardAuth
